import Mathlib

/-!
Shallow embedding of the strategy-dispatch / validation / streaming-persistence
core of the irc-wrapper backend, together with theorems settling the spec
claims against it.

Conventions of the embedding:
* Python byte strings are `List Nat` (one entry per byte).
* Python's `str` is Lean's `String`; `None`-able strings are `Option String`.
* UUID identifiers are modelled as naturals drawn from a fresh-id counter
  carried by the store; claims depend only on identity and linkage, never on
  the identifier format.
* The database is an in-memory store whose message list is kept in insertion
  order, which coincides with the `created_at` ordering used by the queries.
* External collaborators (DNS resolution via `socket.getaddrinfo`, IP parsing
  and classification via the `ipaddress` module, `urllib.parse.urlparse`,
  `base64.b64decode`, SHA-256) are passed in as oracle functions; everything
  the repository itself computes is embedded concretely.
-/

namespace IrcWrapper

/-- `ChatRole` enum from `app/models/enums.py`. -/
inductive ChatRole where
  | USER
  | ASSISTANT
  | SUMMARY
deriving DecidableEq, Repr

/-- `ReferenceType` enum from `app/models/enums.py`. -/
inductive ReferenceType where
  | SIGNED_IN_USER
  | NON_SIGNED_IN_USER
deriving DecidableEq, Repr

/-- Byte strings (`bytes` in Python) as lists of naturals. -/
abbrev Bytes := List Nat

/-- Python's `data.startswith(magic)` on byte strings. -/
def startsWithBytes (data magic : Bytes) : Bool :=
  match magic, data with
  | [], _ => true
  | _ :: _, [] => false
  | m :: ms, d :: ds => m == d && startsWithBytes ds ms

/-- `IMAGE_MAGIC_BYTES` from `app/llm_services/domain_llm_wrapper.py`, in the
Python dict's insertion order (dict iteration preserves it). -/
def IMAGE_MAGIC_BYTES : List (Bytes × String) :=
  [ ([0xff, 0xd8, 0xff], "image/jpeg"),
    ([0x89, 0x50, 0x4e, 0x47, 0x0d, 0x0a, 0x1a, 0x0a], "image/png"),
    ([0x47, 0x49, 0x46, 0x38, 0x37, 0x61], "image/gif"),
    ([0x47, 0x49, 0x46, 0x38, 0x39, 0x61], "image/gif"),
    ([0x52, 0x49, 0x46, 0x46], "image/webp") ]

/-- `validate_image_content` from `app/llm_services/domain_llm_wrapper.py`.
Scans the magic-byte table in order and returns the first match; the
trailing `RIFF`/`WEBP` special check is translated verbatim even though the
table's `RIFF` entry already fires on every `RIFF`-prefixed input.
`Except.error` stands for `raise ValueError`. -/
def validate_image_content (data : Bytes) : Except String String :=
  match IMAGE_MAGIC_BYTES.find? (fun p => startsWithBytes data p.1) with
  | some p => Except.ok p.2
  | none =>
    if data.take 4 == [0x52, 0x49, 0x46, 0x46] && decide (data.length > 12)
        && ((data.drop 8).take 4 == [0x57, 0x45, 0x42, 0x50]) then
      Except.ok "image/webp"
    else
      Except.error "Invalid image format. Supported formats: JPEG, PNG, GIF, WebP"

/-- Classification flags that Python's `ipaddress.ip_address(s)` exposes on a
successfully parsed address.  Parsing and classification live in the
standard library, so they enter the embedding as an oracle
`String → Option IpFlags` (`none` = `ValueError` from `ip_address`). -/
structure IpFlags where
  is_private : Bool
  is_loopback : Bool
  is_link_local : Bool
  is_reserved : Bool
  is_multicast : Bool
deriving DecidableEq, Repr

/-- `_is_private_ip` from `app/llm_services/domain_llm_wrapper.py`: on a
parse failure (`except ValueError`) it returns `False`, otherwise the
disjunction of the five classification flags. -/
def is_private_ip (parseIp : String → Option IpFlags) (ip_str : String) : Bool :=
  match parseIp ip_str with
  | none => false
  | some ip =>
      ip.is_private || ip.is_loopback || ip.is_link_local || ip.is_reserved || ip.is_multicast

/-- ASCII lower-casing of a character (enough for `str.lower()` on the
scheme strings that `urlparse` produces). -/
def asciiLowerChar (c : Char) : Char :=
  if 'A' ≤ c ∧ c ≤ 'Z' then Char.ofNat (c.toNat + 32) else c

/-- ASCII `str.lower()`. -/
def asciiLower (s : String) : String :=
  String.mk (s.data.map asciiLowerChar)

/-- The part of `urllib.parse.urlparse` output that `validate_image_url`
reads: the scheme and the optional hostname. `urlparse` itself is standard
library, so URLs enter the embedding already parsed (an oracle maps raw URL
strings to this record where one is needed). -/
structure ParsedUrl where
  scheme : String
  hostname : Option String
deriving DecidableEq, Repr

/-- Python truthiness of an optional string (`not x` is true for `None` and
for the empty string). -/
def pyTruthy : Option String → Bool
  | none => false
  | some s => !s.isEmpty

/-- `validate_image_url` from `app/llm_services/domain_llm_wrapper.py`,
over a parsed URL.  `resolve` is the `socket.getaddrinfo` oracle: `none`
models `socket.gaierror`, `some ips` the list of resolved address strings.
`Except.error` stands for `raise ValueError`. -/
def validate_image_url (resolve : String → Option (List String))
    (parseIp : String → Option IpFlags) (parsed : ParsedUrl) : Except String Unit :=
  if asciiLower parsed.scheme ≠ "https" then
    Except.error "Only HTTPS URLs are allowed for image_url."
  else if pyTruthy parsed.hostname = false then
    Except.error "Invalid URL: missing hostname."
  else
    let hostname := parsed.hostname.getD ""
    match resolve hostname with
    | none => Except.error ("Could not resolve hostname: " ++ hostname)
    | some ips =>
        if ips.any (fun ip_str => is_private_ip parseIp ip_str) then
          Except.error "URL resolves to a private/internal IP address."
        else
          Except.ok ()

/-- `AmbioAiChat` row (`app/models/ambio_ai_chat.py`), restricted to the
columns the claims' queries read; `title`, `is_archived` and `created_at`
are never consulted by them. -/
structure AmbioAiChat where
  chat_id : Nat
  session_id : String
deriving DecidableEq, Repr

/-- `AmbioAiChatHistory` row (`app/models/ambio_ai_chat_history.py`).
`meta` is the JSON column, flattened to an association list of string pairs;
`created_at` is represented by the store's insertion order. -/
structure AmbioAiChatHistory where
  chat_history_id : Nat
  chat_id : Nat
  previous_message_id : Option Nat
  role : ChatRole
  mode : String
  content : String
  meta : Option (List (String × String))
deriving DecidableEq, Repr

/-- The persisted store: chat rows, history rows in `created_at` order, and
a fresh-identifier counter standing in for `uuid.uuid4()`. -/
structure Db where
  chats : List AmbioAiChat
  messages : List AmbioAiChatHistory
  next_id : Nat
deriving DecidableEq, Repr

/-- `create_chat_message` from `app/utils/database_utils/chat_history_utils.py`:
builds the row with a fresh identifier, commits it (appends in `created_at`
order) and returns it. -/
def create_chat_message (db : Db) (chat_id : Nat) (role : ChatRole) (mode : String)
    (content : String) (meta : Option (List (String × String)))
    (previous_message_id : Option Nat) : AmbioAiChatHistory × Db :=
  let msg : AmbioAiChatHistory :=
    { chat_history_id := db.next_id
      chat_id := chat_id
      previous_message_id := previous_message_id
      role := role
      mode := mode
      content := content
      meta := meta }
  (msg, { db with messages := db.messages ++ [msg], next_id := db.next_id + 1 })

/-- `get_chat_history_by_chat_id`: all history rows of one chat ordered by
`created_at` ascending (insertion order in this store). -/
def get_chat_history_by_chat_id (db : Db) (chat_id : Nat) : List AmbioAiChatHistory :=
  db.messages.filter (fun m => m.chat_id == chat_id)

/-- `count_user_messages_for_session_by_mode` from
`app/utils/database_utils/chat_history_utils.py`: the SQL
`history JOIN chat ON chat.chat_id = history.chat_id` filtered by session,
USER role and mode, counted.  The join is translated literally as the list
of all matching (history, chat) pairs. -/
def count_user_messages_for_session_by_mode (db : Db) (session_id : String) (mode : String) : Nat :=
  ((db.messages.flatMap (fun m =>
      (db.chats.filter (fun c => c.chat_id == m.chat_id)).map (fun c => (m, c)))).filter
    (fun mc => mc.2.session_id == session_id && mc.1.role == ChatRole.USER
      && mc.1.mode == mode)).length

/-- One turn of the model-ready conversation sent to the provider
(`{"role": ..., "content": ...}` dictionaries in the Python code). -/
structure ModelMessage where
  role : String
  content : String
deriving DecidableEq, Repr

/-- The history-to-model-input loop of `ChatStrategy.generate_response`
(`app/ambio_ai_strategy/chat_strategy.py`): USER and ASSISTANT rows are
forwarded with their role names, everything else is skipped.  Note the loop
does not inspect `mode`. -/
def chatBuildModelMessages (history : List AmbioAiChatHistory) : List ModelMessage :=
  history.foldr (fun m acc =>
    match m.role with
    | ChatRole.USER => { role := "user", content := m.content } :: acc
    | ChatRole.ASSISTANT => { role := "assistant", content := m.content } :: acc
    | ChatRole.SUMMARY => acc) []

/-- The prior-context loop of `ImageAnalysisStrategy.generate_response`
(`app/ambio_ai_strategy/image_analysis_strategy.py`): USER and ASSISTANT
rows are forwarded only when their `mode` equals `"chat"`. -/
def imageAnalysisBuildPrior (history : List AmbioAiChatHistory) : List ModelMessage :=
  history.foldr (fun m acc =>
    if m.role == ChatRole.USER && m.mode == "chat" then
      { role := "user", content := m.content } :: acc
    else if m.role == ChatRole.ASSISTANT && m.mode == "chat" then
      { role := "assistant", content := m.content } :: acc
    else acc) []

/-- Outcome of one provider stream as observed by the consuming generator:
either the token sequence was fully drained, or the provider call failed
after delivering a prefix, or the caller abandoned the stream after
consuming a prefix. -/
inductive StreamResult where
  | completed (tokens : List String)
  | failed (delivered : List String)
  | abandoned (delivered : List String)
deriving DecidableEq, Repr

/-- What one `generate_response` run leaves behind: the updated store, the
chunks that reached the caller, and the conversation context handed to the
provider (for ChatStrategy the full model message list, for
ImageAnalysisStrategy the prior-turn context). -/
structure GenResult where
  db : Db
  yielded : List String
  context : List ModelMessage
deriving DecidableEq, Repr

namespace ChatStrategy

/-- `ChatStrategy.run_validation`: counts prior `"chat"`-mode USER messages
for the session and allows up to 3 for signed-in, up to 1 for anonymous. -/
def run_validation (db : Db) (session_id : String) (reference_type : ReferenceType) : Bool :=
  let used := count_user_messages_for_session_by_mode db session_id "chat"
  if reference_type = ReferenceType.SIGNED_IN_USER then decide (used ≤ 3)
  else decide (used ≤ 1)

/-- `ChatStrategy.generate_response`: persist the user turn (no previous
link), build the model input from the chat's history, stream (abstracted by
`stream : StreamResult`) while accumulating, and persist the assistant turn
only after a fully drained stream. -/
def generate_response (db : Db) (active_chat : AmbioAiChat) (input_text : String)
    (stream : StreamResult) : GenResult :=
  let r1 := create_chat_message db active_chat.chat_id ChatRole.USER "chat" input_text none none
  let user_msg := r1.1
  let db1 := r1.2
  let history := get_chat_history_by_chat_id db1 active_chat.chat_id
  let model_messages := chatBuildModelMessages history
  match stream with
  | StreamResult.completed tokens =>
      let full := String.join tokens
      let r2 := create_chat_message db1 active_chat.chat_id ChatRole.ASSISTANT "chat" full
        (some [("provider", "openai"), ("model", "text"), ("master_prompt", "applied")])
        (some user_msg.chat_history_id)
      { db := r2.2, yielded := tokens, context := model_messages }
  | StreamResult.failed delivered =>
      { db := db1, yielded := delivered, context := model_messages }
  | StreamResult.abandoned delivered =>
      { db := db1, yielded := delivered, context := model_messages }

end ChatStrategy

/-- `settings.default_vision_model` from `app/config.py`. -/
def default_vision_model : String := "gpt-4o-mini"

namespace ImageAnalysisStrategy

/-- `ImageAnalysisStrategy.run_validation`: signed-in only, then fewer than
3 prior `"image_analysis"`-mode USER messages. -/
def run_validation (db : Db) (session_id : String) (reference_type : ReferenceType) : Bool :=
  if reference_type ≠ ReferenceType.SIGNED_IN_USER then false
  else decide (count_user_messages_for_session_by_mode db session_id "image_analysis" < 3)

/-- The metadata dict built for the inbound user turn: source tag, the URL
itself when given by URL, and a SHA-256 hash (oracle `sha`) of whichever
image input was supplied — never the raw payload. -/
def userMeta (sha : String → String) (image_url image_base64 : Option String) :
    List (String × String) :=
  if pyTruthy image_url then
    [("image_source", "url"), ("image_url", image_url.getD ""),
     ("image_sha256", sha (image_url.getD ""))]
  else
    [("image_source", "base64"), ("image_sha256", sha (image_base64.getD ""))]

/-- `ImageAnalysisStrategy.generate_response`: persist the user turn with
image metadata, build the chat-mode-only prior context, stream the vision
call (abstracted by `stream`), persist the assistant turn only after a fully
drained stream. -/
def generate_response (sha : String → String) (db : Db) (active_chat : AmbioAiChat)
    (input_text : String) (image_url image_base64 : Option String)
    (stream : StreamResult) : GenResult :=
  let r1 := create_chat_message db active_chat.chat_id ChatRole.USER "image_analysis"
    input_text (some (userMeta sha image_url image_base64)) none
  let user_msg := r1.1
  let db1 := r1.2
  let history := get_chat_history_by_chat_id db1 active_chat.chat_id
  let prior := imageAnalysisBuildPrior history
  match stream with
  | StreamResult.completed tokens =>
      let full := String.join tokens
      let r2 := create_chat_message db1 active_chat.chat_id ChatRole.ASSISTANT "image_analysis"
        full
        (some [("provider", "openai"), ("model", default_vision_model),
               ("master_prompt", "applied")])
        (some user_msg.chat_history_id)
      { db := r2.2, yielded := tokens, context := prior }
  | StreamResult.failed delivered =>
      { db := db1, yielded := delivered, context := prior }
  | StreamResult.abandoned delivered =>
      { db := db1, yielded := delivered, context := prior }

end ImageAnalysisStrategy

namespace ImageStrategy

/-- `ImageStrategy.run_validation` (`app/ambio_ai_strategy/image_strategy.py`):
signed-in only, then fewer than 3 prior `"image"`-mode USER messages. -/
def run_validation (db : Db) (session_id : String) (reference_type : ReferenceType) : Bool :=
  if reference_type ≠ ReferenceType.SIGNED_IN_USER then false
  else decide (count_user_messages_for_session_by_mode db session_id "image" < 3)

end ImageStrategy

/-- The registered strategy classes (`app/ambio_ai_strategy/strategy_register.py`
registers `ChatStrategy`, `ImageAnalysisStrategy`, `ImageStrategy`;
`BadStrategy` is never registered, only used as the dispatch fallback). -/
inductive StrategyClass where
  | ChatStrategyC
  | ImageAnalysisStrategyC
  | ImageStrategyC
deriving DecidableEq, Repr

/-- Each class's `purpose()` list of mode names. -/
def purpose : StrategyClass → List String
  | StrategyClass.ChatStrategyC => ["chat"]
  | StrategyClass.ImageAnalysisStrategyC => ["image_analysis"]
  | StrategyClass.ImageStrategyC => ["image"]

/-- Python dict assignment `d[k] = v`: overwrite in place if the key exists,
otherwise append (insertion order preserved). -/
def dictInsert (d : List (String × StrategyClass)) (k : String) (v : StrategyClass) :
    List (String × StrategyClass) :=
  if d.any (fun p => p.1 == k) then
    d.map (fun p => if p.1 == k then (k, v) else p)
  else
    d ++ [(k, v)]

/-- Python dict lookup `d.get(k)`. -/
def dictGet (d : List (String × StrategyClass)) (k : String) : Option StrategyClass :=
  (d.find? (fun p => p.1 == k)).map (fun p => p.2)

/-- `register_strategies` from `app/ambio_ai_strategy/registry.py`: for each
class, insert one registry entry per name in its `purpose()` list. -/
def register_strategies (classes : List StrategyClass) : List (String × StrategyClass) :=
  classes.foldl (fun reg cls => (purpose cls).foldl (fun r p => dictInsert r p cls) reg) []

/-- `STRATEGY_REGISTRY` as populated by `app/ambio_ai_strategy/strategy_register.py`. -/
def STRATEGY_REGISTRY : List (String × StrategyClass) :=
  register_strategies
    [StrategyClass.ChatStrategyC, StrategyClass.ImageAnalysisStrategyC,
     StrategyClass.ImageStrategyC]

/-- A dispatched strategy instance; `BadStrategyI` carries the
`invalid_mode` string its constructor received. -/
inductive Strategy where
  | ChatStrategyI
  | ImageAnalysisStrategyI
  | ImageStrategyI
  | BadStrategyI (invalid_mode : String)
deriving DecidableEq, Repr

/-- `cls()` instantiation for registered classes. -/
def instantiate : StrategyClass → Strategy
  | StrategyClass.ChatStrategyC => Strategy.ChatStrategyI
  | StrategyClass.ImageAnalysisStrategyC => Strategy.ImageAnalysisStrategyI
  | StrategyClass.ImageStrategyC => Strategy.ImageStrategyI

/-- ASCII whitespace as stripped by Python's `str.strip()` (the Unicode
whitespace cases beyond ASCII are not needed by any mode string). -/
def pyWhitespaceChar (c : Char) : Bool :=
  c == ' ' || c == '\t' || c == '\n' || c == Char.ofNat 0x0d || c == Char.ofNat 0x0b
    || c == Char.ofNat 0x0c

/-- Python's `str.strip()`: drop leading and trailing whitespace. -/
def pyStrip (s : String) : String :=
  String.mk (((s.data.dropWhile pyWhitespaceChar).reverse.dropWhile pyWhitespaceChar).reverse)

/-- The normalisation `(mode or "chat").strip().lower()` from
`choose_strategy`: Python `or` replaces a falsy (`None` or empty) mode by
`"chat"`, then whitespace is stripped and the result lower-cased. -/
def normalizeMode (mode : Option String) : String :=
  let raw := match mode with
    | none => "chat"
    | some s => if s.isEmpty then "chat" else s
  asciiLower (pyStrip raw)

/-- `choose_strategy` from `app/ambio_ai_strategy/choose_strategy.py`:
normalise, look up the registry, fall back to `BadStrategy(invalid_mode=m)`
on a miss. -/
def choose_strategy (mode : Option String) : Strategy :=
  let m := normalizeMode mode
  match dictGet STRATEGY_REGISTRY m with
  | none => Strategy.BadStrategyI m
  | some cls => instantiate cls

/-- Which distinct `raise ValueError` site of
`DomainLlmWrapper.stream_image_analysis` fired (the Python code raises the
same exception type everywhere; the constructors record the raise site, the
payload the message). -/
inductive VisionError where
  | exactlyOneError
  | urlError (msg : String)
  | base64Error (msg : String)
  | contentError (msg : String)
deriving DecidableEq, Repr

/-- The `image_part` dictionary finally passed to the provider (its single
interesting datum is the URL / data-URL string). -/
structure ImagePart where
  url : String
deriving DecidableEq, Repr

/-- The pre-provider phase of `DomainLlmWrapper.stream_image_analysis`
(`app/llm_services/domain_llm_wrapper.py`): the exactly-one-of check on the
two image inputs (Python truthiness), then either SSRF validation of the
URL, or data-URL pass-through, or base64 decoding (`b64decode` oracle,
`none` = decoding exception) followed by magic-byte validation of the first
16 decoded bytes and data-URL construction.  Only after an `Except.ok` does
the code reach the provider call. -/
def stream_image_analysis_request (urlparse : String → ParsedUrl)
    (resolve : String → Option (List String)) (parseIp : String → Option IpFlags)
    (b64decode : String → Option Bytes)
    (image_url image_base64 : Option String) : Except VisionError ImagePart :=
  if pyTruthy image_url == pyTruthy image_base64 then
    Except.error VisionError.exactlyOneError
  else if pyTruthy image_url then
    let u := image_url.getD ""
    match validate_image_url resolve parseIp (urlparse u) with
    | Except.error m => Except.error (VisionError.urlError m)
    | Except.ok _ => Except.ok { url := u }
  else
    let b64 := image_base64.getD ""
    if b64.take 5 == "data:" then
      Except.ok { url := b64 }
    else
      match b64decode b64 with
      | none => Except.error (VisionError.base64Error "image_base64 must be valid base64 or a data URL.")
      | some decoded =>
          match validate_image_content (decoded.take 16) with
          | Except.error m => Except.error (VisionError.contentError m)
          | Except.ok mime_type =>
              Except.ok { url := "data:" ++ mime_type ++ ";base64," ++ b64 }

/-! Helper lemmas about the SQL-join count. -/

/-- If no chat row carries the identifier `x`, the join filter over the chat
table is empty. -/
theorem filter_chatid_nil (chats : List AmbioAiChat) (x : Nat)
    (hx : x ∉ chats.map AmbioAiChat.chat_id) (q : AmbioAiChat → Bool) :
    chats.filter (fun c => c.chat_id == x && q c) = [] := by
  induction chats with
  | nil => rfl
  | cons c cs ih =>
      simp only [List.map_cons, List.mem_cons, not_or] at hx
      rw [List.filter_cons]
      have hc : (c.chat_id == x && q c) = false := by
        have : c.chat_id ≠ x := fun h => hx.1 (by simp [h])
        simp [this]
      simp [hc, ih hx.2]

/-- Under distinct chat identifiers (the primary-key invariant), the join
against one message's `chat_id` finds at most one chat row. -/
theorem length_filter_chatid (chats : List AmbioAiChat) (x : Nat)
    (hnd : (chats.map AmbioAiChat.chat_id).Nodup) (q : AmbioAiChat → Bool) :
    (chats.filter (fun c => c.chat_id == x && q c)).length
      = (if chats.any (fun c => c.chat_id == x && q c) then 1 else 0) := by
  induction chats with
  | nil => rfl
  | cons c cs ih =>
      simp only [List.map_cons, List.nodup_cons] at hnd
      rw [List.filter_cons, List.any_cons]
      by_cases hc : (c.chat_id == x && q c) = true
      · have hc2 := hc
        rw [Bool.and_eq_true] at hc2
        have hcx : c.chat_id = x := eq_of_beq hc2.1
        have hnil : cs.filter (fun c' => c'.chat_id == x && q c') = [] :=
          filter_chatid_nil cs x (by rw [← hcx]; exact hnd.1) q
        simp [hc, hnil]
      · simp only [Bool.not_eq_true] at hc
        simp [hc, ih hnd.2]

/-- Counting the filtered message–chat join equals counting the messages
that satisfy the message-side predicate and have an owning chat satisfying
the chat-side predicate, provided chat identifiers are distinct. -/
theorem joinCount (msgs : List AmbioAiChatHistory) (chats : List AmbioAiChat)
    (P : AmbioAiChatHistory → Bool) (Q : AmbioAiChat → Bool)
    (hnd : (chats.map AmbioAiChat.chat_id).Nodup) :
    ((msgs.flatMap (fun m =>
        (chats.filter (fun c => c.chat_id == m.chat_id)).map (fun c => (m, c)))).filter
        (fun mc => Q mc.2 && P mc.1)).length
      = (msgs.filter (fun m =>
          P m && chats.any (fun c => c.chat_id == m.chat_id && Q c))).length := by
  induction msgs with
  | nil => rfl
  | cons m ms ih =>
      rw [List.flatMap_cons, List.filter_append, List.length_append, ih, List.filter_cons]
      have hhead : (((chats.filter (fun c => c.chat_id == m.chat_id)).map
            (fun c => (m, c))).filter (fun mc => Q mc.2 && P mc.1)).length
          = (if P m && chats.any (fun c => c.chat_id == m.chat_id && Q c) then 1 else 0) := by
        rw [List.filter_map, List.length_map]
        by_cases hP : P m = true
        · have hpred : ∀ c ∈ chats.filter (fun c => c.chat_id == m.chat_id),
              ((fun mc => Q mc.2 && P mc.1) ∘ (fun c => (m, c))) c = Q c := by
            intro c _; simp [Function.comp, hP]
          rw [List.filter_congr hpred, List.filter_filter]
          have := length_filter_chatid chats m.chat_id hnd Q
          simp only [hP, Bool.true_and]
          calc (chats.filter (fun c => Q c && (c.chat_id == m.chat_id))).length
              = (chats.filter (fun c => c.chat_id == m.chat_id && Q c)).length := by
                apply congrArg
                apply List.filter_congr
                intro c _
                exact Bool.and_comm _ _
            _ = _ := this
        · simp only [Bool.not_eq_true] at hP
          have hpred : ∀ c ∈ chats.filter (fun c => c.chat_id == m.chat_id),
              ((fun mc => Q mc.2 && P mc.1) ∘ (fun c => (m, c))) c = false := by
            intro c _; simp [Function.comp, hP]
          rw [List.filter_congr hpred]
          simp [hP]
      rw [hhead]
      by_cases hm : (P m && chats.any (fun c => c.chat_id == m.chat_id && Q c)) = true
      · simp [hm, Nat.add_comm]
      · simp only [Bool.not_eq_true] at hm
        simp [hm]

/-- C1: for every chat and image-analysis request, `generate_response`
persists the user message first (it is present even when the provider fails
before producing any token, and carries no `previous_message_id`); after a
fully drained stream exactly one assistant message is appended, whose
content is the concatenation of all yielded tokens and whose
`previous_message_id` is the just-persisted user message's id; when the
provider call fails or the stream is abandoned mid-way, the store holds only
the user message beyond its previous contents. -/
theorem C1_stream_persistence (db : Db) (chat : AmbioAiChat) (input : String)
    (sha : String → String) (image_url image_base64 : Option String)
    (tokens delivered aband : List String) :
    ((ChatStrategy.generate_response db chat input (StreamResult.completed tokens)).db.messages
        = db.messages
          ++ [{ chat_history_id := db.next_id, chat_id := chat.chat_id,
                previous_message_id := none, role := ChatRole.USER, mode := "chat",
                content := input, meta := none },
              { chat_history_id := db.next_id + 1, chat_id := chat.chat_id,
                previous_message_id := some db.next_id, role := ChatRole.ASSISTANT,
                mode := "chat", content := String.join tokens,
                meta := some [("provider", "openai"), ("model", "text"),
                              ("master_prompt", "applied")] }]
      ∧ (ChatStrategy.generate_response db chat input (StreamResult.completed tokens)).yielded
          = tokens)
    ∧ (ChatStrategy.generate_response db chat input (StreamResult.failed delivered)).db.messages
        = db.messages
          ++ [{ chat_history_id := db.next_id, chat_id := chat.chat_id,
                previous_message_id := none, role := ChatRole.USER, mode := "chat",
                content := input, meta := none }]
    ∧ (ChatStrategy.generate_response db chat input (StreamResult.abandoned aband)).db.messages
        = db.messages
          ++ [{ chat_history_id := db.next_id, chat_id := chat.chat_id,
                previous_message_id := none, role := ChatRole.USER, mode := "chat",
                content := input, meta := none }]
    ∧ ((ImageAnalysisStrategy.generate_response sha db chat input image_url image_base64
          (StreamResult.completed tokens)).db.messages
        = db.messages
          ++ [{ chat_history_id := db.next_id, chat_id := chat.chat_id,
                previous_message_id := none, role := ChatRole.USER,
                mode := "image_analysis", content := input,
                meta := some (ImageAnalysisStrategy.userMeta sha image_url image_base64) },
              { chat_history_id := db.next_id + 1, chat_id := chat.chat_id,
                previous_message_id := some db.next_id, role := ChatRole.ASSISTANT,
                mode := "image_analysis", content := String.join tokens,
                meta := some [("provider", "openai"), ("model", default_vision_model),
                              ("master_prompt", "applied")] }]
      ∧ (ImageAnalysisStrategy.generate_response sha db chat input image_url image_base64
          (StreamResult.completed tokens)).yielded = tokens)
    ∧ (ImageAnalysisStrategy.generate_response sha db chat input image_url image_base64
          (StreamResult.failed delivered)).db.messages
        = db.messages
          ++ [{ chat_history_id := db.next_id, chat_id := chat.chat_id,
                previous_message_id := none, role := ChatRole.USER,
                mode := "image_analysis", content := input,
                meta := some (ImageAnalysisStrategy.userMeta sha image_url image_base64) }]
    ∧ (ImageAnalysisStrategy.generate_response sha db chat input image_url image_base64
          (StreamResult.abandoned aband)).db.messages
        = db.messages
          ++ [{ chat_history_id := db.next_id, chat_id := chat.chat_id,
                previous_message_id := none, role := ChatRole.USER,
                mode := "image_analysis", content := input,
                meta := some (ImageAnalysisStrategy.userMeta sha image_url image_base64) }] := by
  refine ⟨⟨?_, ?_⟩, ?_, ?_, ⟨?_, ?_⟩, ?_, ?_⟩ <;>
    simp [ChatStrategy.generate_response, ImageAnalysisStrategy.generate_response,
      create_chat_message]

/-- C2: the Quota Ledger count equals the number of persisted USER-role
messages with the given mode across the chats owned by the session (stated
against the literal SQL join, under the primary-key invariant that chat
identifiers are distinct); it is never negative, and it is zero when the
session owns no persisted message. -/
theorem C2_quota_count (db : Db) (session_id mode : String)
    (hnd : (db.chats.map AmbioAiChat.chat_id).Nodup) :
    count_user_messages_for_session_by_mode db session_id mode
      = (db.messages.filter (fun m => (m.role == ChatRole.USER && m.mode == mode)
          && db.chats.any (fun c => c.chat_id == m.chat_id
              && c.session_id == session_id))).length
    ∧ 0 ≤ count_user_messages_for_session_by_mode db session_id mode
    ∧ ((∀ m ∈ db.messages, ∀ c ∈ db.chats, c.chat_id = m.chat_id →
          c.session_id ≠ session_id) →
        count_user_messages_for_session_by_mode db session_id mode = 0) := by
  have hmain : count_user_messages_for_session_by_mode db session_id mode
      = (db.messages.filter (fun m => (m.role == ChatRole.USER && m.mode == mode)
          && db.chats.any (fun c => c.chat_id == m.chat_id
              && c.session_id == session_id))).length := by
    unfold count_user_messages_for_session_by_mode
    have hcongr : ∀ mc ∈ (db.messages.flatMap (fun m =>
        (db.chats.filter (fun c => c.chat_id == m.chat_id)).map (fun c => (m, c)))),
        (mc.2.session_id == session_id && mc.1.role == ChatRole.USER
          && mc.1.mode == mode)
          = ((fun c => c.session_id == session_id) mc.2
              && (fun m => m.role == ChatRole.USER && m.mode == mode) mc.1) := by
      intro mc _
      exact Bool.and_assoc _ _ _
    rw [List.filter_congr hcongr,
      joinCount db.messages db.chats
        (fun m => m.role == ChatRole.USER && m.mode == mode)
        (fun c => c.session_id == session_id) hnd]
  refine ⟨hmain, Nat.zero_le _, ?_⟩
  intro hnone
  rw [hmain]
  have hall : ∀ m ∈ db.messages, ((m.role == ChatRole.USER && m.mode == mode)
      && db.chats.any (fun c => c.chat_id == m.chat_id
          && c.session_id == session_id)) = false := by
    intro m hm
    have hany : db.chats.any (fun c => c.chat_id == m.chat_id
        && c.session_id == session_id) = false := by
      rw [List.any_eq_false]
      intro c hc hcontra
      rw [Bool.and_eq_true] at hcontra
      exact hnone m hm c hc (eq_of_beq hcontra.1) (eq_of_beq hcontra.2)
    simp [hany]
  have hnil : db.messages.filter (fun m => (m.role == ChatRole.USER && m.mode == mode)
      && db.chats.any (fun c => c.chat_id == m.chat_id
          && c.session_id == session_id)) = [] := by
    rw [List.filter_eq_nil_iff]
    intro m hm
    simp [hall m hm]
  simp [hnil]

/-- C2 witness: the count theorem applied to a concrete store with two
sessions, two chats and three messages. -/
theorem C2_quota_count_witness :
    ((⟨[⟨1, "s"⟩, ⟨2, "t"⟩],
        [⟨0, 1, none, ChatRole.USER, "chat", "hi", none⟩,
         ⟨1, 1, some 0, ChatRole.ASSISTANT, "chat", "hello back", none⟩,
         ⟨2, 2, none, ChatRole.USER, "chat", "other session", none⟩],
        3⟩ : Db).chats.map AmbioAiChat.chat_id).Nodup
    ∧ count_user_messages_for_session_by_mode
        (⟨[⟨1, "s"⟩, ⟨2, "t"⟩],
          [⟨0, 1, none, ChatRole.USER, "chat", "hi", none⟩,
           ⟨1, 1, some 0, ChatRole.ASSISTANT, "chat", "hello back", none⟩,
           ⟨2, 2, none, ChatRole.USER, "chat", "other session", none⟩],
          3⟩ : Db) "s" "chat"
      = ((⟨[⟨1, "s"⟩, ⟨2, "t"⟩],
          [⟨0, 1, none, ChatRole.USER, "chat", "hi", none⟩,
           ⟨1, 1, some 0, ChatRole.ASSISTANT, "chat", "hello back", none⟩,
           ⟨2, 2, none, ChatRole.USER, "chat", "other session", none⟩],
          3⟩ : Db).messages.filter (fun m => (m.role == ChatRole.USER && m.mode == "chat")
            && (⟨[⟨1, "s"⟩, ⟨2, "t"⟩],
              [⟨0, 1, none, ChatRole.USER, "chat", "hi", none⟩,
               ⟨1, 1, some 0, ChatRole.ASSISTANT, "chat", "hello back", none⟩,
               ⟨2, 2, none, ChatRole.USER, "chat", "other session", none⟩],
              3⟩ : Db).chats.any (fun c => c.chat_id == m.chat_id
                && c.session_id == "s"))).length :=
  ⟨by decide,
    (C2_quota_count
      (⟨[⟨1, "s"⟩, ⟨2, "t"⟩],
        [⟨0, 1, none, ChatRole.USER, "chat", "hi", none⟩,
         ⟨1, 1, some 0, ChatRole.ASSISTANT, "chat", "hello back", none⟩,
         ⟨2, 2, none, ChatRole.USER, "chat", "other session", none⟩],
        3⟩ : Db) "s" "chat" (by decide)).1⟩

/-- C3: `validate_image_content` recognises JPEG, PNG, GIF87a, GIF89a and
`RIFF....WEBP` inputs with the claimed MIME types and rejects plain text,
but — against the claim and against the function's own (unreachable)
`RIFF`+`WEBP` marker check — it also returns `image/webp` for bytes that
begin with `RIFF` and carry no `WEBP` marker at offset 8 (here the header
of an AVI file), because the magic-byte table maps the bare `RIFF` prefix
to `image/webp`. -/
theorem C3_image_magic_bytes :
    validate_image_content [0xff, 0xd8, 0xff, 0xe0, 0x00, 0x10] = Except.ok "image/jpeg"
    ∧ validate_image_content [0x89, 0x50, 0x4e, 0x47, 0x0d, 0x0a, 0x1a, 0x0a, 0x00]
        = Except.ok "image/png"
    ∧ validate_image_content [0x47, 0x49, 0x46, 0x38, 0x37, 0x61, 0x00] = Except.ok "image/gif"
    ∧ validate_image_content [0x47, 0x49, 0x46, 0x38, 0x39, 0x61, 0x00] = Except.ok "image/gif"
    ∧ validate_image_content
        [0x52, 0x49, 0x46, 0x46, 0x00, 0x00, 0x00, 0x00, 0x57, 0x45, 0x42, 0x50, 0x00]
        = Except.ok "image/webp"
    ∧ validate_image_content ("Not an image content".data.map Char.toNat)
        = Except.error "Invalid image format. Supported formats: JPEG, PNG, GIF, WebP"
    ∧ validate_image_content
        [0x52, 0x49, 0x46, 0x46, 0x24, 0x00, 0x00, 0x00, 0x41, 0x56, 0x49, 0x20]
        = Except.ok "image/webp" :=
  ⟨rfl, rfl, rfl, rfl, rfl, rfl, rfl⟩

/-- C4: `validate_image_url` accepts exactly the URLs whose (lower-cased)
scheme is `https`, whose hostname is present, whose hostname resolves, and
none of whose resolved addresses classifies as private, loopback,
link-local, reserved or multicast; every other URL is rejected. -/
theorem C4_validate_image_url_ok_iff (resolve : String → Option (List String))
    (parseIp : String → Option IpFlags) (parsed : ParsedUrl) :
    validate_image_url resolve parseIp parsed = Except.ok () ↔
      (asciiLower parsed.scheme = "https"
        ∧ pyTruthy parsed.hostname = true
        ∧ ∃ ips, resolve (parsed.hostname.getD "") = some ips
            ∧ ∀ ip_str ∈ ips, is_private_ip parseIp ip_str = false) := by
  unfold validate_image_url
  by_cases hs : asciiLower parsed.scheme = "https"
  · simp only [hs, ne_eq, not_true_eq_false, if_false]
    by_cases hh : pyTruthy parsed.hostname = true
    · simp only [hh, Bool.true_eq_false, if_false]
      cases hr : resolve (parsed.hostname.getD "") with
      | none => simp [hr]
      | some ips =>
          by_cases ha : ips.any (fun ip_str => is_private_ip parseIp ip_str) = true
          · simp only [ha, if_true]
            rw [List.any_eq_true] at ha
            obtain ⟨ip0, hip0, hpriv⟩ := ha
            constructor
            · intro h
              simp at h
            · rintro ⟨_, _, ips2, hips2, hall⟩
              have hips : ips = ips2 := by injection hips2
              subst hips
              exact absurd hpriv (by simp [hall ip0 hip0])
          · simp only [Bool.not_eq_true] at ha
            simp only [ha, Bool.false_eq_true, if_false, hs, hh, true_and]
            rw [List.any_eq_false] at ha
            constructor
            · intro _
              exact ⟨ips, rfl, fun i hi => by simpa using ha i hi⟩
            · intro _
              trivial
    · simp only [Bool.not_eq_true] at hh
      simp [hh]
  · simp [hs]

/-- C5 counterexample: a store holding exactly one prior chat-mode USER
message for session `s`, on which the anonymous chat validation still
returns `true` — so it is not the case that at least 1 prior message makes
the (second) request fail. -/
theorem C5_anonymous_chat_ceiling_counterexample :
    count_user_messages_for_session_by_mode
        (⟨[⟨1, "s"⟩],
          [⟨0, 1, none, ChatRole.USER, "chat", "hello", none⟩], 2⟩ : Db) "s" "chat" = 1
    ∧ ChatStrategy.run_validation
        (⟨[⟨1, "s"⟩],
          [⟨0, 1, none, ChatRole.USER, "chat", "hello", none⟩], 2⟩ : Db) "s"
        ReferenceType.NON_SIGNED_IN_USER = true :=
  ⟨by decide, by decide⟩

/-- C5 amended: for an anonymous reference kind, `ChatStrategy.run_validation`
passes exactly while at most 1 prior chat-mode USER message is persisted
(`used <= 1`), so the second request still passes and the request made with
2 prior messages — the third — is the first to fail. -/
theorem C5_anonymous_chat_ceiling (db : Db) (session_id : String) :
    ChatStrategy.run_validation db session_id ReferenceType.NON_SIGNED_IN_USER = true
      ↔ count_user_messages_for_session_by_mode db session_id "chat" ≤ 1 := by
  simp [ChatStrategy.run_validation]

/-- C6: the Image and ImageAnalysis validations return false for the
non-signed-in reference kind regardless of the store, and for the signed-in
kind they pass exactly while fewer than 3 prior same-mode USER messages are
persisted (counted under `"image"` and `"image_analysis"` respectively), so
requests are rejected once 3 prior same-mode messages exist. -/
theorem C6_image_modes_validation (db : Db) (session_id : String) :
    ImageAnalysisStrategy.run_validation db session_id ReferenceType.NON_SIGNED_IN_USER = false
    ∧ ImageStrategy.run_validation db session_id ReferenceType.NON_SIGNED_IN_USER = false
    ∧ (ImageAnalysisStrategy.run_validation db session_id ReferenceType.SIGNED_IN_USER = true
        ↔ count_user_messages_for_session_by_mode db session_id "image_analysis" < 3)
    ∧ (ImageStrategy.run_validation db session_id ReferenceType.SIGNED_IN_USER = true
        ↔ count_user_messages_for_session_by_mode db session_id "image" < 3) := by
  refine ⟨?_, ?_, ?_, ?_⟩ <;>
    simp [ImageAnalysisStrategy.run_validation, ImageStrategy.run_validation]

/-- C7: dispatch is total and normalising — `"CHAT"`, `" chat "` and an
absent mode all resolve to the Chat strategy, and any mode whose normalised
form is not registered resolves to the Invalid strategy carrying that
normalised string (e.g. `"nonexistent"`). -/
theorem C7_choose_strategy_dispatch :
    choose_strategy (some "CHAT") = Strategy.ChatStrategyI
    ∧ choose_strategy (some " chat ") = Strategy.ChatStrategyI
    ∧ choose_strategy none = Strategy.ChatStrategyI
    ∧ choose_strategy (some "nonexistent") = Strategy.BadStrategyI "nonexistent"
    ∧ ∀ mode : Option String, dictGet STRATEGY_REGISTRY (normalizeMode mode) = none →
        choose_strategy mode = Strategy.BadStrategyI (normalizeMode mode) := by
  refine ⟨by decide, by decide, by decide, by decide, ?_⟩
  intro mode h
  simp [choose_strategy, h]

/-- C7 witness: the registry-miss clause applied to the concrete
unregistered mode `"zzz"`. -/
theorem C7_choose_strategy_dispatch_witness :
    dictGet STRATEGY_REGISTRY (normalizeMode (some "zzz")) = none
    ∧ choose_strategy (some "zzz") = Strategy.BadStrategyI (normalizeMode (some "zzz")) :=
  ⟨by decide, C7_choose_strategy_dispatch.2.2.2.2 (some "zzz") (by decide)⟩

/-- C8 counterexample: a chat whose only persisted turn is an
`image_analysis`-mode USER message; ChatStrategy's model input for that
chat contains that non-chat turn (followed by the freshly persisted user
message), so the chat model input is not restricted to chat-mode turns. -/
theorem C8_context_filter_counterexample :
    ((⟨[⟨1, "s"⟩],
        [⟨0, 1, none, ChatRole.USER, "image_analysis", "what is in this image",
          some [("image_source", "url")]⟩], 1⟩ : Db).messages.map
        AmbioAiChatHistory.mode) = ["image_analysis"]
    ∧ (ChatStrategy.generate_response
        (⟨[⟨1, "s"⟩],
          [⟨0, 1, none, ChatRole.USER, "image_analysis", "what is in this image",
            some [("image_source", "url")]⟩], 1⟩ : Db)
        ⟨1, "s"⟩ "hello" (StreamResult.failed [])).context
      = [⟨"user", "what is in this image"⟩, ⟨"user", "hello"⟩] :=
  ⟨by decide, by decide⟩

/-- C8 amended: ChatStrategy's model input contains every USER/ASSISTANT
turn of the chat's history regardless of mode, while
ImageAnalysisStrategy's prior context contains exactly the USER/ASSISTANT
turns whose mode is `"chat"` (never image turns). -/
theorem C8_context_filter (history : List AmbioAiChatHistory) :
    chatBuildModelMessages history
      = (history.filter (fun m => m.role == ChatRole.USER
          || m.role == ChatRole.ASSISTANT)).map
          (fun m => { role := if m.role == ChatRole.USER then "user" else "assistant",
                      content := m.content })
    ∧ imageAnalysisBuildPrior history
      = (history.filter (fun m => (m.role == ChatRole.USER
            || m.role == ChatRole.ASSISTANT) && m.mode == "chat")).map
          (fun m => { role := if m.role == ChatRole.USER then "user" else "assistant",
                      content := m.content }) := by
  constructor
  · induction history with
    | nil => rfl
    | cons m ms ih =>
        cases hrole : m.role <;>
          simp [chatBuildModelMessages, List.filter_cons, hrole, ih] <;>
          simp [chatBuildModelMessages] at ih <;> exact ih
  · induction history with
    | nil => rfl
    | cons m ms ih =>
        cases hrole : m.role <;> by_cases hmode : m.mode == "chat" <;>
          simp [imageAnalysisBuildPrior, List.filter_cons, hrole, hmode] <;>
          simp [imageAnalysisBuildPrior] at ih <;> simp_all

/-- C9: the pre-provider phase of `stream_image_analysis` raises the
exactly-one-of error precisely when the image URL and the image payload are
both supplied or both absent (Python truthiness: a present non-empty
value counts as supplied); when exactly one is supplied that error is never
raised, whatever the URL-validation, decoding and content-validation
oracles do. -/
theorem C9_exactly_one_image_input (urlparse : String → ParsedUrl)
    (resolve : String → Option (List String)) (parseIp : String → Option IpFlags)
    (b64decode : String → Option Bytes) (image_url image_base64 : Option String) :
    stream_image_analysis_request urlparse resolve parseIp b64decode image_url image_base64
        = Except.error VisionError.exactlyOneError
      ↔ pyTruthy image_url = pyTruthy image_base64 := by
  unfold stream_image_analysis_request
  cases hu : pyTruthy image_url <;> cases hbt : pyTruthy image_base64
  · simp
  · by_cases hd : (((image_base64.getD "").take 5 == "data:") = true)
    · simp [hd]
    · simp only [Bool.not_eq_true] at hd
      cases hdec : b64decode (image_base64.getD "") with
      | none => simp [hd, hdec]
      | some decoded =>
          cases hvc : validate_image_content (decoded.take 16) <;>
            simp [hd, hdec, hvc]
  · cases hv : validate_image_url resolve parseIp (urlparse (image_url.getD "")) <;>
      simp [hv]
  · simp

/-- C10: `_is_private_ip` returns false for every address string the IP
parser rejects, and consequently `validate_image_url` accepts an HTTPS URL
with a resolvable hostname even when DNS resolution yields only an address
string outside IP-address syntax. -/
theorem C10_unparseable_ip (parseIp : String → Option IpFlags)
    (resolve : String → Option (List String)) (s host : String)
    (hs : parseIp s = none) (hhost : host.isEmpty = false)
    (hres : resolve host = some [s]) :
    is_private_ip parseIp s = false
    ∧ validate_image_url resolve parseIp { scheme := "https", hostname := some host }
        = Except.ok () := by
  have hpriv : is_private_ip parseIp s = false := by
    unfold is_private_ip
    rw [hs]
  refine ⟨hpriv, ?_⟩
  unfold validate_image_url
  have hlower : asciiLower "https" = "https" := by decide
  simp [hlower, pyTruthy, hhost, hres, hpriv]

/-- C10 witness: an IP parser that rejects everything, a resolver mapping
`img.example.com` to the non-IP string `!bogus!`, and the resulting
acceptance of the URL. -/
theorem C10_unparseable_ip_witness :
    is_private_ip (fun _ => none) "!bogus!" = false
    ∧ validate_image_url (fun _ => some ["!bogus!"]) (fun _ => none)
        { scheme := "https", hostname := some "img.example.com" } = Except.ok () :=
  ⟨(C10_unparseable_ip (fun _ => none) (fun _ => some ["!bogus!"]) "!bogus!"
      "img.example.com" rfl (by decide) rfl).1,
    (C10_unparseable_ip (fun _ => none) (fun _ => some ["!bogus!"]) "!bogus!"
      "img.example.com" rfl (by decide) rfl).2⟩

end IrcWrapper
